import Mathlib

/-!
Shallow embedding of the auth-related parts of the `frontend-owasp`
single-page application, together with proofs of the spec claims.

The TypeScript sources embedded here:
* `src/lib/api.ts` — axios instance configuration, response interceptor,
  `apiMethods` wrappers;
* `src/lib/cookieUtils.ts` — `tokenUtils`;
* `src/services/authService.ts` — `authService.login`, `verifyAuth`,
  `twoFactor.verify`, request shapes;
* `src/contexts/AuthContext.tsx` — `AuthProvider` (checkAuth, login,
  logout, refresh-timer effect);
* `src/lib/mockData.ts` — mock user helpers used by the provider;
* the current and legacy `SensitiveDataManager` components —
  `maskSensitiveValue`;
* the legacy mock `AuthContext` — `verify2FA`.

Asynchronous backend calls are embedded by passing the backend's outcome
(or a backend oracle) as an explicit argument; React state updates are
embedded as functions on an explicit `AuthState`.
-/

namespace FrontendOwasp

/-! ### HTTP client wrapper (`src/lib/api.ts`) -/

/-- Static configuration of the axios instance. -/
structure ApiConfig where
  baseURL : String
  timeoutMs : Nat
  contentType : String
  withCredentials : Bool
deriving Repr, DecidableEq

/-- `axios.create({ baseURL, timeout, headers, withCredentials })` in `api.ts`. -/
def api : ApiConfig :=
  { baseURL := "http://localhost:8080/v1"
  , timeoutMs := 10000
  , contentType := "application/json"
  , withCredentials := true }

inductive HttpMethod where
  | get | post | put | delete | patch
deriving Repr, DecidableEq

/-- A request as issued by the `apiMethods` wrappers: the axios instance
configuration it runs under, the HTTP method, the url and the optional body. -/
structure ApiRequest (β : Type) where
  config : ApiConfig
  method : HttpMethod
  url : String
  body : Option β
deriving Repr, DecidableEq

/-- `apiMethods.get` forwards to `api.get`. -/
def apiMethods.get (β : Type) (url : String) : ApiRequest β :=
  { config := api, method := .get, url := url, body := none }

/-- `apiMethods.post` forwards to `api.post`. -/
def apiMethods.post {β : Type} (url : String) (body : Option β) : ApiRequest β :=
  { config := api, method := .post, url := url, body := body }

/-- `apiMethods.put` forwards to `api.put`. -/
def apiMethods.put {β : Type} (url : String) (body : Option β) : ApiRequest β :=
  { config := api, method := .put, url := url, body := body }

/-- `apiMethods.delete` forwards to `api.delete`. -/
def apiMethods.delete (β : Type) (url : String) : ApiRequest β :=
  { config := api, method := .delete, url := url, body := none }

/-- `apiMethods.patch` forwards to `api.patch`. -/
def apiMethods.patch {β : Type} (url : String) (body : Option β) : ApiRequest β :=
  { config := api, method := .patch, url := url, body := body }

/-! ### `tokenUtils` (`src/lib/cookieUtils.ts`) -/

/-- The browser cookie jar visible to JavaScript. -/
structure CookieState where
  cookies : List (String × String)
deriving Repr, DecidableEq

/-- `tokenUtils.isAuthenticated`: always `false`, HTTP-only cookies are unreadable. -/
def tokenUtils.isAuthenticated : Bool := false

/-- `tokenUtils.getAuthToken`: always `null`. -/
def tokenUtils.getAuthToken : Option String := none

/-- `tokenUtils.getRefreshToken`: always `null`. -/
def tokenUtils.getRefreshToken : Option String := none

/-- `tokenUtils.clearAuthTokens`: the function body is empty, it changes no
observable state. -/
def tokenUtils.clearAuthTokens (s : CookieState) : CookieState := s

/-! ### Response interceptor (`src/lib/api.ts`, `api.interceptors.response`) -/

/-- Raw outcome of one issue of a request against the backend:
either a resolved response, or a rejected axios error whose
`error.response?.status` is the given optional status. -/
inductive RawResponse (α : Type) where
  | success (data : α)
  | failure (status : Option Nat)
deriving Repr, DecidableEq

/-- What the error branch of the response interceptor decides to do, as a
function of `error.response?.status` and the request's `_retry` flag:
`refreshAndRetry` stands for `originalRequest._retry = true; await
authService.refreshToken(); return api(originalRequest)`, `reject` for
`return Promise.reject(error)`. -/
inductive ErrorAction where
  | refreshAndRetry
  | reject
deriving Repr, DecidableEq

/-- The guard of the interceptor's error branch:
`error.response?.status === 401 && !originalRequest._retry`. -/
def onResponseError (status : Option Nat) (retryFlag : Bool) : ErrorAction :=
  if status == some 401 && !retryFlag then .refreshAndRetry else .reject

/-- Observable trace of running one request through the axios instance with
the response interceptor installed. -/
structure InterceptTrace (α : Type) where
  result : RawResponse α
  attempts : Nat
  refreshCalls : Nat
  finalRetryFlag : Bool
deriving Repr, DecidableEq

/-- Running a fresh request (its `_retry` flag unset) through `api`:
`raw i` is the backend's raw outcome of the `i`-th issue of the request and
`refreshOk` tells whether `authService.refreshToken()` resolves.  On a first
401 the interceptor sets `_retry`, refreshes, and re-issues the request; the
re-issued request's own failures re-enter the interceptor with `_retry`
already set, where `onResponseError` yields `reject`, so they are passed to
the caller unchanged.  If the refresh itself throws, the interceptor clears
tokens and rejects with the original error. -/
def runApiRequest {α : Type} (refreshOk : Bool) (raw : Nat → RawResponse α) :
    InterceptTrace α :=
  match raw 0 with
  | .success a => { result := .success a, attempts := 1, refreshCalls := 0, finalRetryFlag := false }
  | .failure st =>
    match onResponseError st false with
    | .reject => { result := .failure st, attempts := 1, refreshCalls := 0, finalRetryFlag := false }
    | .refreshAndRetry =>
      if refreshOk then
        match raw 1 with
        | .success a =>
            { result := .success a, attempts := 2, refreshCalls := 1, finalRetryFlag := true }
        | .failure st2 =>
            match onResponseError st2 true with
            | _ => { result := .failure st2, attempts := 2, refreshCalls := 1, finalRetryFlag := true }
      else
        { result := .failure st, attempts := 1, refreshCalls := 1, finalRetryFlag := true }

/-! ### Auth service data model (`src/services/authService.ts`) -/

/-- Body of a successful `/auth/login` or `/auth/refresh` response. -/
structure AuthTokenResponse where
  access_token : String
  refresh_token : String
  token_type : String
  expires_in : Nat
deriving Repr, DecidableEq

/-- Body of an HTTP 422 login answer. -/
structure TOTPRequiredResponse where
  error : String
  totp_required : Bool
deriving Repr, DecidableEq

/-- Body of an HTTP 423 login answer. -/
structure AccountLockedResponse where
  error : String
  locked_until : String
deriving Repr, DecidableEq

/-- JSON body attached to a rejected response; carries every field the
TypeScript code may read off `error.response.data` after a structural cast. -/
structure ErrorData where
  error : String
  message : Option String
  totp_required : Bool
  locked_until : String
deriving Repr, DecidableEq

/-- `LoginRequest` shape posted to `/auth/login`. -/
structure LoginRequest where
  email : String
  password : String
  totp_code : Option String
deriving Repr, DecidableEq

/-- `RegisterRequest` shape posted to `/auth/register`. -/
structure RegisterRequest where
  email : String
  password : String
  surname : String
  name : String
deriving Repr, DecidableEq

/-- Raw outcome of the axios post performed inside `authService.login`. -/
inductive LoginRawOutcome where
  | success (body : AuthTokenResponse)
  | httpError (status : Nat) (data : ErrorData)
  | otherError (tag : String)
deriving Repr, DecidableEq

/-- What `authService.login` can throw: the 423 body cast to
`AccountLockedResponse`, the original axios error rethrown unchanged, or a
response-less error rethrown unchanged. -/
inductive LoginThrown where
  | locked (body : AccountLockedResponse)
  | raw (status : Nat) (data : ErrorData)
  | other (tag : String)
deriving Repr, DecidableEq

/-- `authService.login`: posts the credentials; a 422 answer is returned as a
`TOTPRequiredResponse` value, a 423 answer throws its body as an
`AccountLockedResponse`, every other rejection is rethrown unchanged. -/
def authService.login (outcome : LoginRawOutcome) :
    Except LoginThrown (AuthTokenResponse ⊕ TOTPRequiredResponse) :=
  match outcome with
  | .success body => .ok (.inl body)
  | .httpError status data =>
    if status == 422 then
      .ok (.inr { error := data.error, totp_required := data.totp_required })
    else if status == 423 then
      .error (.locked { error := data.error, locked_until := data.locked_until })
    else
      .error (.raw status data)
  | .otherError tag => .error (.other tag)

/-- The HTTP request issued by `authService.login`. -/
def authService.loginHttp (credentials : LoginRequest) : ApiRequest LoginRequest :=
  apiMethods.post "/auth/login" (some credentials)

/-- The HTTP request issued by `authService.register`. -/
def authService.registerHttp (userData : RegisterRequest) : ApiRequest RegisterRequest :=
  apiMethods.post "/auth/register" (some userData)

/-- The HTTP request issued by `authService.verifyAuth`. -/
def authService.verifyAuthHttp : ApiRequest Unit :=
  apiMethods.post "/auth/refresh" none

/-- `authService.verifyAuth`: try to refresh, answer `true` on success and
`false` on any rejection.  It is a total function into `Bool`: it never
throws. -/
def authService.verifyAuth {ε : Type} (outcome : Except ε AuthTokenResponse) : Bool :=
  match outcome with
  | .ok _ => true
  | .error _ => false

/-- 2FA verification request shape. -/
structure TwoFactorVerificationRequest where
  method : String
  code : String
  setup_token : Option String
deriving Repr, DecidableEq

/-- 2FA verification response shape. -/
structure TwoFactorVerificationResponse where
  verified : Bool
  backup_codes : Option (List String)
deriving Repr, DecidableEq

/-- `authService.twoFactor.verify`: posts the submitted code to
`/users/{userId}/2fa/verify` and returns the backend's response body; the
backend oracle maps an url and a request body to the response body. -/
def authService.twoFactor.verify
    (backend : String → TwoFactorVerificationRequest → TwoFactorVerificationResponse)
    (userId : Nat) (data : TwoFactorVerificationRequest) : TwoFactorVerificationResponse :=
  backend ("/users/" ++ toString userId ++ "/2fa/verify") data

/-- The HTTP request issued by `authService.twoFactor.verify`. -/
def authService.twoFactor.verifyHttp (userId : Nat)
    (data : TwoFactorVerificationRequest) : ApiRequest TwoFactorVerificationRequest :=
  apiMethods.post ("/users/" ++ toString userId ++ "/2fa/verify") (some data)

/-- `verify2FA` of the legacy mock auth context: a client-side check that
accepts exactly the hard-coded code `123456`, with no backend involved. -/
def verify2FA (code : String) : Bool :=
  code == "123456"

/-! ### Auth provider (`src/contexts/AuthContext.tsx`, `src/lib/mockData.ts`) -/

/-- Frontend user model (`src/contexts/authTypes.ts`). -/
structure User where
  id : Nat
  email : String
  name : String
  surname : String
  totpEnabled : Bool
deriving Repr, DecidableEq

/-- React state held by the `AuthProvider`. -/
structure AuthState where
  user : Option User
  isAuthenticated : Bool
  isLoading : Bool
deriving Repr, DecidableEq

/-- `createMockUser` with explicit login data (`src/lib/mockData.ts`). -/
def createMockUser (email name surname : String) : User :=
  { id := 1, email := email, name := name, surname := surname, totpEnabled := false }

/-- `getMockAuthenticatedUser` (`src/lib/mockData.ts`). -/
def getMockAuthenticatedUser : User :=
  { id := 1, email := "mario.rossi@example.com", name := "Mario", surname := "Rossi"
  , totpEnabled := false }

/-- The fixed `mockUsers` list (`src/lib/mockData.ts`). -/
def mockUsers : List User :=
  [ { id := 1, email := "mario.rossi@example.com", name := "Mario", surname := "Rossi"
    , totpEnabled := false }
  , { id := 2, email := "giulia.bianchi@example.com", name := "Giulia", surname := "Bianchi"
    , totpEnabled := true }
  , { id := 3, email := "luca.verdi@example.com", name := "Luca", surname := "Verdi"
    , totpEnabled := false } ]

/-- `findMockUserByEmail` (`src/lib/mockData.ts`). -/
def findMockUserByEmail (email : String) : Option User :=
  mockUsers.find? (fun u => u.email == email)

/-- JavaScript truthiness of an optional string (`undefined` and the empty
string are falsy). -/
def jsTruthy (o : Option String) : Bool :=
  match o with
  | none => false
  | some s => !(s == "")

/-- `w.charAt(0).toUpperCase() + w.slice(1)`. -/
def jsCapitalize (w : String) : String :=
  match w.toList with
  | [] => ""
  | c :: cs => String.mk (c.toUpper :: cs)

/-- User record the provider's login installs: a mock user found by email, or
one created from the local part of the email address. -/
def loginUserData (email : String) : User :=
  match findMockUserByEmail email with
  | some u => u
  | none =>
    let nameParts := ((email.splitOn "@").headD "").splitOn "."
    createMockUser email
      (match nameParts.get? 0 with
       | some w => if w == "" then "User" else jsCapitalize w
       | none => "User")
      (match nameParts.get? 1 with
       | some w => if w == "" then "Unknown" else jsCapitalize w
       | none => "Unknown")

/-- Normalised error produced by `handleAPIError` (`src/lib/apiConstants.ts`). -/
structure APIError where
  status : Nat
  message : String
deriving Repr, DecidableEq

/-- `handleAPIError` applied to what `authService.login` throws: only a value
with a `response` property yields its status; the 423 body thrown as a plain
`AccountLockedResponse` object has none, so it falls into the network-error
branch with status 0. -/
def handleAPIError (thrown : LoginThrown) : APIError :=
  match thrown with
  | .raw status data =>
    { status := status
    , message :=
        match data.message with
        | some m => if m == "" then (if data.error == "" then "An error occurred" else data.error) else m
        | none => if data.error == "" then "An error occurred" else data.error }
  | .locked _ => { status := 0, message := "Network error or unknown error occurred" }
  | .other _ => { status := 0, message := "Network error or unknown error occurred" }

/-- Value returned by the provider's `login`; `requiresTOTP := none` models
the field being absent from the returned object. -/
structure LoginResult where
  success : Bool
  requiresTOTP : Option Bool
  error : Option String
deriving Repr, DecidableEq

/-- The provider's success path after `authService.login` returned a value
without a truthy `totp_required` field: mark authenticated and install the
user record (TOTP flag forced when a code was used). -/
def loginSuccessPath (email : String) (totpCode : Option String) (s : AuthState) :
    LoginResult × AuthState :=
  let userData0 := loginUserData email
  let userData := if jsTruthy totpCode then { userData0 with totpEnabled := true } else userData0
  ( { success := true, requiresTOTP := none, error := none }
  , { s with isAuthenticated := true, user := some userData } )

/-- `AuthProvider.login`: calls `authService.login` on the built credentials;
a returned value with `totp_required` truthy maps to
`{ success: false, requiresTOTP: true }`; other values take the success path;
a thrown error is normalised by `handleAPIError` and reported as a failed
login, with a dedicated message when the normalised status is 423. -/
def AuthProvider.login (outcome : LoginRawOutcome) (email : String)
    (totpCode : Option String) (s : AuthState) : LoginResult × AuthState :=
  match authService.login outcome with
  | .ok result =>
    match result with
    | .inr totpResp =>
      if totpResp.totp_required then
        ( { success := false, requiresTOTP := some true, error := some "TOTP code required" }, s )
      else loginSuccessPath email totpCode s
    | .inl _ => loginSuccessPath email totpCode s
  | .error thrown =>
    let apiError := handleAPIError thrown
    if apiError.status == 423 then
      ( { success := false, requiresTOTP := none
        , error := some "Account temporarily locked due to too many failed attempts" }, s )
    else
      ( { success := false, requiresTOTP := none
        , error := some (if apiError.message == "" then "Login failed" else apiError.message) }, s )

/-- The credentials object the provider's `login` builds and hands to
`authService.login`: the password is passed through unchanged. -/
def AuthProvider.loginCredentials (email password : String) (totpCode : Option String) :
    LoginRequest :=
  { email := email, password := password, totp_code := totpCode }

/-- The registration object the provider's `register` builds and hands to
`authService.register`: the password is passed through unchanged. -/
def AuthProvider.registerData (email password name surname : String) : RegisterRequest :=
  { email := email, password := password, surname := surname, name := name }

/-- `checkAuth` run by the provider's mount effect: probe with
`authService.verifyAuth`, set `isAuthenticated` to the probe's answer,
install the mock user on success and clear it on failure. -/
def AuthProvider.checkAuth {ε : Type} (outcome : Except ε AuthTokenResponse)
    (s : AuthState) : AuthState :=
  let isValid := authService.verifyAuth outcome
  { s with
      isAuthenticated := isValid
    , user := if isValid then some getMockAuthenticatedUser else none
    , isLoading := false }

/-- `AuthProvider.logout`: try the backend `/auth/logout` call, swallow its
error, and in the `finally` block clear the user, the authenticated flag and
(vacuously) the tokens. -/
def AuthProvider.logout {ε : Type} (backendOutcome : Except ε Unit) (s : AuthState)
    (cookies : CookieState) : AuthState × CookieState :=
  match backendOutcome with
  | .ok _ =>
    ( { s with user := none, isAuthenticated := false }, tokenUtils.clearAuthTokens cookies )
  | .error _ =>
    ( { s with user := none, isAuthenticated := false }, tokenUtils.clearAuthTokens cookies )

/-! ### Refresh-timer effect (`AuthContext.tsx`, the `[isAuthenticated]` effect) -/

/-- The interval period passed to `setInterval`: `14 * 60 * 1000` ms. -/
def refreshIntervalMs : Nat := 14 * 60 * 1000

/-- Timer installed by one run of the effect body: none when
`isAuthenticated` is false (the effect returns early), otherwise an interval
firing `refreshToken` every `refreshIntervalMs`. -/
def refreshTimerFor (isAuthenticated : Bool) : Option Nat :=
  if isAuthenticated then some refreshIntervalMs else none

/-- React effect semantics over the `isAuthenticated` dependency: each change
first runs the previous cleanup (`clearInterval`) and then the effect body,
so the active timer only depends on the new value. -/
def applyAuthEffect (_active : Option Nat) (isAuthenticated : Bool) : Option Nat :=
  refreshTimerFor isAuthenticated

/-- Active refresh timer after the provider has seen the given history of
`isAuthenticated` values (oldest first; the effect also runs on mount, where
the initial state is unauthenticated and no timer exists). -/
def activeRefreshTimer (history : List Bool) : Option Nat :=
  history.foldl applyAuthEffect none

/-! ### Sensitive-data masking (current and legacy `SensitiveDataManager`) -/

/-- JavaScript `s.substring(0, n)`: the first `min(n, length)` characters. -/
def jsSubstringTo (s : String) (n : Nat) : String :=
  String.mk (s.toList.take n)

/-- JavaScript `s.slice(-n)`: the last `min(n, length)` characters. -/
def jsSliceLast (s : String) (n : Nat) : String :=
  String.mk (s.toList.drop (s.toList.length - n))

/-- The current editor's union type `'iban' | 'fiscal_code'`. -/
inductive SensitiveType where
  | iban
  | fiscal_code
deriving Repr, DecidableEq

/-- `maskSensitiveValue` of the current `SensitiveDataManager`: values of
length at most 8 (IBAN) or at most 6 (fiscal code) are returned unmasked. -/
def maskSensitiveValue (value : String) (t : SensitiveType) : String :=
  match t with
  | .iban =>
    if value.length ≤ 8 then value
    else jsSubstringTo value 8 ++ " **** **** **** " ++ jsSliceLast value 4
  | .fiscal_code =>
    if value.length ≤ 6 then value
    else jsSubstringTo value 3 ++ "***" ++ jsSliceLast value 3

/-- `maskSensitiveValue` of the legacy `SensitiveDataManager`: the type is an
open string and there is no short-value guard. -/
def legacyMaskSensitiveValue (value : String) (t : String) : String :=
  if t == "iban" then
    jsSubstringTo value 8 ++ " **** **** **** " ++ jsSliceLast value 4
  else if t == "codice_fiscale" then
    jsSubstringTo value 3 ++ "***" ++ jsSliceLast value 3
  else
    String.mk (List.replicate (min value.length 16) '*')

end FrontendOwasp

namespace FrontendOwasp

/-- C1: a 401 failure on a request whose `_retry` flag is unset makes the
interceptor set the flag, refresh once, and re-issue the original request
exactly once (two issues in total, one refresh call), the final result being
whatever the re-issued request produced; in particular a second 401 is
rejected to the caller with no second refresh, because `onResponseError`
answers `reject` whenever the flag is set. -/
theorem c1_interceptor_single_retry {α : Type} (raw : Nat → RawResponse α)
    (h401 : raw 0 = .failure (some 401)) :
    (runApiRequest true raw).result = raw 1 ∧
    (runApiRequest true raw).attempts = 2 ∧
    (runApiRequest true raw).refreshCalls = 1 ∧
    (runApiRequest true raw).finalRetryFlag = true ∧
    (∀ st : Option Nat, onResponseError st true = .reject) ∧
    (raw 1 = .failure (some 401) →
      (runApiRequest true raw).result = .failure (some 401) ∧
      (runApiRequest true raw).refreshCalls = 1) := by
  have hreject : ∀ st : Option Nat, onResponseError st true = .reject := by
    intro st
    simp [onResponseError]
  have hrun : runApiRequest true raw =
      { result := raw 1, attempts := 2, refreshCalls := 1, finalRetryFlag := true } := by
    unfold runApiRequest
    rw [h401]
    simp only [onResponseError, beq_self_eq_true, Bool.not_false, Bool.and_self, if_true]
    cases hr : raw 1 with
    | success a => simp [hr]
    | failure st2 => simp [hr]
  refine ⟨by rw [hrun], by rw [hrun], by rw [hrun], by rw [hrun], hreject, ?_⟩
  intro hsecond
  exact ⟨by rw [hrun, hsecond], by rw [hrun]⟩

/-- Witness for `c1_interceptor_single_retry` at the concrete backend trace
that answers 401 to both issues of the request. -/
theorem c1_interceptor_single_retry_witness :
    (runApiRequest true (fun _ => (.failure (some 401) : RawResponse Unit))).result =
        .failure (some 401) ∧
    (runApiRequest true (fun _ => (.failure (some 401) : RawResponse Unit))).refreshCalls = 1 :=
  (c1_interceptor_single_retry (fun _ => (.failure (some 401) : RawResponse Unit)) rfl).2.2.2.2.2 rfl

/-- C7: the HTTP client wrapper is created with base URL
`http://localhost:8080/v1`, `withCredentials: true` and a 10000 ms timeout,
and every request issued through `apiMethods` carries exactly this
configuration. -/
theorem c7_api_configuration :
    api.baseURL = "http://localhost:8080/v1" ∧
    api.withCredentials = true ∧
    api.timeoutMs = 10000 ∧
    (∀ (β : Type) (url : String) (body : Option β),
      (apiMethods.get β url).config = api ∧
      (apiMethods.post url body).config = api ∧
      (apiMethods.put url body).config = api ∧
      (apiMethods.delete β url).config = api ∧
      (apiMethods.patch url body).config = api) := by
  refine ⟨rfl, rfl, rfl, ?_⟩
  intro β url body
  exact ⟨rfl, rfl, rfl, rfl, rfl⟩

/-- C8: `tokenUtils.isAuthenticated()` always returns `false`,
`tokenUtils.getAuthToken()` and `tokenUtils.getRefreshToken()` always return
`null`, and `tokenUtils.clearAuthTokens()` changes no observable state. -/
theorem c8_tokenUtils_inert :
    tokenUtils.isAuthenticated = false ∧
    tokenUtils.getAuthToken = none ∧
    tokenUtils.getRefreshToken = none ∧
    (∀ s : CookieState, tokenUtils.clearAuthTokens s = s) :=
  ⟨rfl, rfl, rfl, fun _ => rfl⟩

/-- C2: `authService.verifyAuth` issues POST `/auth/refresh`, answers `true`
exactly when that call succeeds and `false` on any failure (it is total, so
it never throws); `checkAuth` sets `isAuthenticated` to exactly that boolean
and clears the user whenever the probe fails. -/
theorem c2_verifyAuth_probe {ε : Type} (outcome : Except ε AuthTokenResponse)
    (s : AuthState) :
    authService.verifyAuthHttp.method = HttpMethod.post ∧
    authService.verifyAuthHttp.url = "/auth/refresh" ∧
    (authService.verifyAuth outcome = true ↔ ∃ body, outcome = .ok body) ∧
    (AuthProvider.checkAuth outcome s).isAuthenticated = authService.verifyAuth outcome ∧
    (authService.verifyAuth outcome = false → (AuthProvider.checkAuth outcome s).user = none) := by
  refine ⟨rfl, rfl, ?_, ?_, ?_⟩
  · cases outcome with
    | ok body => simp [authService.verifyAuth]
    | error e => simp [authService.verifyAuth]
  · rfl
  · intro hfail
    simp [AuthProvider.checkAuth, hfail]

/-- Witness for `c2_verifyAuth_probe` at a failing probe. -/
theorem c2_verifyAuth_probe_witness :
    (AuthProvider.checkAuth (Except.error () : Except Unit AuthTokenResponse)
      { user := none, isAuthenticated := false, isLoading := true }).user = none :=
  (c2_verifyAuth_probe (Except.error ())
    { user := none, isAuthenticated := false, isLoading := true }).2.2.2.2 rfl

/-- C3: `authService.login` returns the success body, returns the 422 body as
a `TOTPRequiredResponse` value, throws the 423 body as an
`AccountLockedResponse`, and rethrows every other error unchanged; the
provider maps a 422 outcome whose body asks for TOTP to
`{ success: false, requiresTOTP: true }`. -/
theorem c3_login_three_outcomes :
    (∀ body, authService.login (.success body) = .ok (.inl body)) ∧
    (∀ data, authService.login (.httpError 422 data) =
        .ok (.inr { error := data.error, totp_required := data.totp_required })) ∧
    (∀ data, authService.login (.httpError 423 data) =
        .error (.locked { error := data.error, locked_until := data.locked_until })) ∧
    (∀ status data, status ≠ 422 → status ≠ 423 →
        authService.login (.httpError status data) = .error (.raw status data)) ∧
    (∀ tag, authService.login (.otherError tag) = .error (.other tag)) ∧
    (∀ data email totpCode s, data.totp_required = true →
        (AuthProvider.login (.httpError 422 data) email totpCode s).1 =
          { success := false, requiresTOTP := some true, error := some "TOTP code required" }) := by
  refine ⟨fun body => rfl, fun data => rfl, fun data => rfl, ?_, fun tag => rfl, ?_⟩
  · intro status data h422 h423
    simp [authService.login, beq_iff_eq, h422, h423]
  · intro data email totpCode s htotp
    simp [AuthProvider.login, authService.login, htotp]

/-- Witness for `c3_login_three_outcomes`: the status-neutral rethrow and the
provider's 422 mapping at concrete inputs. -/
theorem c3_login_three_outcomes_witness :
    authService.login
        (.httpError 500 { error := "boom", message := none, totp_required := false, locked_until := "" }) =
      .error (.raw 500 { error := "boom", message := none, totp_required := false, locked_until := "" }) ∧
    (AuthProvider.login
        (.httpError 422 { error := "totp required", message := none, totp_required := true, locked_until := "" })
        "mario.rossi@example.com" none
        { user := none, isAuthenticated := false, isLoading := false }).1 =
      { success := false, requiresTOTP := some true, error := some "TOTP code required" } :=
  ⟨c3_login_three_outcomes.2.2.2.1 500 _ (by decide) (by decide),
   c3_login_three_outcomes.2.2.2.2.2 _ "mario.rossi@example.com" none
     { user := none, isAuthenticated := false, isLoading := false } rfl⟩

/-- C4 counterexample: the legacy mock context's `verify2FA` is a client-side
code path that declares the code `123456` valid on its own, refuting the
claim that no client-side code path decides 2FA validity. -/
theorem c4_counterexample : verify2FA "123456" = true := by decide

/-- C4 amended: `authService.twoFactor.verify` obtains its decision from the
backend's `/users/{userId}/2fa/verify` endpoint, but the legacy mock
context's `verify2FA` decides client-side, accepting exactly the hard-coded
code `123456`. -/
theorem c4_backend_verify_and_legacy_mock :
    (∀ (backend : String → TwoFactorVerificationRequest → TwoFactorVerificationResponse)
        (userId : Nat) (data : TwoFactorVerificationRequest),
      authService.twoFactor.verify backend userId data =
        backend ("/users/" ++ toString userId ++ "/2fa/verify") data) ∧
    (∀ (userId : Nat) (data : TwoFactorVerificationRequest),
      (authService.twoFactor.verifyHttp userId data).config = api ∧
      (authService.twoFactor.verifyHttp userId data).method = HttpMethod.post ∧
      (authService.twoFactor.verifyHttp userId data).url =
        "/users/" ++ toString userId ++ "/2fa/verify") ∧
    (∀ code, verify2FA code = (code == "123456")) :=
  ⟨fun _ _ _ => rfl, fun _ _ => ⟨rfl, rfl, rfl⟩, fun _ => rfl⟩

/-- C5: the provider's login and registration flows transmit the password
exactly as entered: the request bodies posted to `/auth/login` and
`/auth/register` carry the unmodified password, so no client-side hashing is
applied in those flows. -/
theorem c5_password_passthrough (email password name surname : String)
    (totpCode : Option String) :
    (authService.loginHttp (AuthProvider.loginCredentials email password totpCode)).body =
      some { email := email, password := password, totp_code := totpCode } ∧
    (AuthProvider.loginCredentials email password totpCode).password = password ∧
    (authService.loginHttp (AuthProvider.loginCredentials email password totpCode)).url =
      "/auth/login" ∧
    (authService.registerHttp (AuthProvider.registerData email password name surname)).body =
      some { email := email, password := password, surname := surname, name := name } ∧
    (AuthProvider.registerData email password name surname).password = password ∧
    (authService.registerHttp (AuthProvider.registerData email password name surname)).url =
      "/auth/register" :=
  ⟨rfl, rfl, rfl, rfl, rfl, rfl⟩

/-- C6: after any history of `isAuthenticated` values, the active refresh
timer is an interval of `14 * 60 * 1000` ms exactly when the latest value is
true, and no timer exists when it is false. -/
theorem c6_refresh_timer_period (history : List Bool) (b : Bool) :
    refreshIntervalMs = 14 * 60 * 1000 ∧
    activeRefreshTimer (history ++ [b]) = (if b then some (14 * 60 * 1000) else none) ∧
    activeRefreshTimer [] = none := by
  refine ⟨rfl, ?_, rfl⟩
  simp [activeRefreshTimer, List.foldl_append, applyAuthEffect, refreshTimerFor,
    refreshIntervalMs]

/-- C9: whatever the backend's `/auth/logout` call does, after `logout`
completes the user is cleared, `isAuthenticated` is false, and the cookie jar
is untouched (token clearing is a no-op for HTTP-only cookies). -/
theorem c9_logout_signed_out {ε : Type} (backendOutcome : Except ε Unit)
    (s : AuthState) (cookies : CookieState) :
    (AuthProvider.logout backendOutcome s cookies).1.user = none ∧
    (AuthProvider.logout backendOutcome s cookies).1.isAuthenticated = false ∧
    (AuthProvider.logout backendOutcome s cookies).2 = cookies := by
  cases backendOutcome with
  | ok u => exact ⟨rfl, rfl, rfl⟩
  | error e => exact ⟨rfl, rfl, rfl⟩

/-- C10 counterexample: on the two-character IBAN value `AB` the current
editor returns it unmasked while the legacy editor still applies the mask
pattern, so the two functions are not equivalent on short values. -/
theorem c10_counterexample :
    maskSensitiveValue "AB" .iban ≠ legacyMaskSensitiveValue "AB" "iban" := by
  decide

/-- Length of a `substring(0, n)` prefix. -/
theorem jsSubstringTo_length (s : String) (n : Nat) :
    (jsSubstringTo s n).length = min n s.length := by
  show (s.toList.take n).length = min n s.length
  rw [List.length_take]
  rfl

/-- Length of a `slice(-n)` suffix. -/
theorem jsSliceLast_length (s : String) (n : Nat) :
    (jsSliceLast s n).length = min n s.length := by
  show (s.toList.drop (s.toList.length - n)).length = min n s.length
  rw [List.length_drop]
  have : s.toList.length = s.length := rfl
  omega

/-- Length of the legacy IBAN mask: prefix, literal of 16 characters, suffix. -/
theorem legacyMask_iban_length (v : String) :
    (legacyMaskSensitiveValue v "iban").length = min 8 v.length + 16 + min 4 v.length := by
  have hbranch : legacyMaskSensitiveValue v "iban" =
      jsSubstringTo v 8 ++ " **** **** **** " ++ jsSliceLast v 4 := by
    simp [legacyMaskSensitiveValue]
  rw [hbranch, String.length_append, String.length_append, jsSubstringTo_length,
    jsSliceLast_length]
  rfl

/-- Length of the legacy fiscal-code mask: prefix, literal of 3 characters,
suffix. -/
theorem legacyMask_cf_length (v : String) :
    (legacyMaskSensitiveValue v "codice_fiscale").length = min 3 v.length + 3 + min 3 v.length := by
  have hbranch : legacyMaskSensitiveValue v "codice_fiscale" =
      jsSubstringTo v 3 ++ "***" ++ jsSliceLast v 3 := by
    have h1 : (("codice_fiscale" : String) == "iban") = false := by decide
    simp [legacyMaskSensitiveValue, h1]
  rw [hbranch, String.length_append, String.length_append, jsSubstringTo_length,
    jsSliceLast_length]
  rfl

/-- C10 amended: the two masking functions agree for IBAN values longer than
8 characters and fiscal-code values longer than 6 characters; on every value
of length at most 8 (IBAN) or at most 6 (fiscal code) they differ, the
current editor returning the value unmasked while the legacy editor still
masks it (the legacy output is strictly longer than the input, so the two
can never coincide there). -/
theorem c10_mask_equiv_long_values (v : String) :
    (8 < v.length → maskSensitiveValue v .iban = legacyMaskSensitiveValue v "iban") ∧
    (6 < v.length → maskSensitiveValue v .fiscal_code = legacyMaskSensitiveValue v "codice_fiscale") ∧
    (v.length ≤ 8 → maskSensitiveValue v .iban = v ∧
      maskSensitiveValue v .iban ≠ legacyMaskSensitiveValue v "iban") ∧
    (v.length ≤ 6 → maskSensitiveValue v .fiscal_code = v ∧
      maskSensitiveValue v .fiscal_code ≠ legacyMaskSensitiveValue v "codice_fiscale") := by
  refine ⟨?_, ?_, ?_, ?_⟩
  · intro h
    have hle : ¬ v.length ≤ 8 := by omega
    simp [maskSensitiveValue, legacyMaskSensitiveValue, hle]
  · intro h
    have hle : ¬ v.length ≤ 6 := by omega
    simp [maskSensitiveValue, legacyMaskSensitiveValue, hle]
  · intro h
    have hcur : maskSensitiveValue v .iban = v := by
      simp [maskSensitiveValue, h]
    refine ⟨hcur, ?_⟩
    rw [hcur]
    intro heq
    have hlen := congrArg String.length heq
    rw [legacyMask_iban_length] at hlen
    omega
  · intro h
    have hcur : maskSensitiveValue v .fiscal_code = v := by
      simp [maskSensitiveValue, h]
    refine ⟨hcur, ?_⟩
    rw [hcur]
    intro heq
    have hlen := congrArg String.length heq
    rw [legacyMask_cf_length] at hlen
    omega

/-- Witness for `c10_mask_equiv_long_values`: a concrete long IBAN where the
masks agree and a concrete short fiscal code where they differ. -/
theorem c10_mask_equiv_long_values_witness :
    maskSensitiveValue "IT60X0542811101000000123456" .iban =
      legacyMaskSensitiveValue "IT60X0542811101000000123456" "iban" ∧
    (maskSensitiveValue "ABC" .fiscal_code = "ABC" ∧
      maskSensitiveValue "ABC" .fiscal_code ≠ legacyMaskSensitiveValue "ABC" "codice_fiscale") :=
  ⟨(c10_mask_equiv_long_values "IT60X0542811101000000123456").1 (by decide),
   (c10_mask_equiv_long_values "ABC").2.2.2 (by decide)⟩

end FrontendOwasp
